import Mathlib

/-!
# http-echo: a shallow embedding of `main.go`

The program is a tiny HTTP diagnostic server.  Each handler of `main.go` is
embedded as a pure function on an explicit connection state (the
`http.ResponseWriter` and the process log).  Everything a handler reads from
outside the request (the process environment, the outcome of `os.Hostname`,
the outcome of `httputil.DumpRequest`) is an explicit input, `World`.

Go strings are Lean `String`s; the standard-library routines that inspect them
byte by byte (`net.SplitHostPort`, `net.ParseIP`, `path.Clean`) are written over
`List Char`.  All the bytes these routines test for are ASCII, and an ASCII byte
never occurs inside a multi-byte UTF-8 sequence, so scanning characters agrees
with scanning bytes.
-/

namespace HttpEcho

/-! ## Process environment and outside world -/

/-- The process environment: the value bound to a variable, `none` when unset. -/
abbrev Environ := String → Option String

/-- Go `os.Getenv`: the value of the variable, the empty string when unset. -/
def os_Getenv (env : Environ) (key : String) : String :=
  (env key).getD ""

/-- Go `*url.URL` as far as the program looks at it: the decoded path the
router matches, the raw query, and the text `(*URL).String()` renders
(what `%s` prints). -/
structure URL where
  Path : String
  RawQuery : String
  text : String
deriving DecidableEq, Repr

/-- Go `http.Header` as the handler's `range` loop meets it: one entry per key,
in the order of this run's map iteration (Go leaves that order unspecified, so
every order is a possible input), each with its values in their stored order. -/
abbrev Header := List (String × List String)

/-- Go `*http.Request`, the fields the program can observe. -/
structure Request where
  Method : String
  URL : URL
  Proto : String
  Header : Header
  Body : String
  Host : String
  RemoteAddr : String
  RequestURI : String
deriving DecidableEq, Repr

/-- Everything a handler reads that is not in the request. -/
structure World where
  /-- the process environment at the time of the request -/
  environ : Environ
  /-- outcome of `os.Hostname()`: the host name, or the error's text -/
  hostname : Except String String
  /-- outcome of `httputil.DumpRequest(r, true)`: the wire text, or the
  error's text -/
  DumpRequest : Request → Except String String

/-! ## The response writer -/

/-- Go `http.ResponseWriter`: the header map the handler may edit, the status
line once written (`none` until `WriteHeader` has happened, then the code and
the snapshot of the header map that goes on the wire), and the body bytes. -/
structure ResponseWriter where
  header : Header
  wroteHeader : Option (Nat × Header)
  body : String
deriving DecidableEq, Repr

/-- The writer the server hands to a handler. -/
def ResponseWriter.fresh : ResponseWriter :=
  { header := [], wroteHeader := none, body := "" }

/-- Go `http.StatusOK`. -/
def StatusOK : Nat := 200

/-- Go `w.Header().Set(key, value)`: replace the values of `key` by the single
`value`.  (The only key the program sets, `Content-Type`, is already in
canonical MIME form, so canonicalisation is the identity on it.) -/
def ResponseWriter.HeaderSet (w : ResponseWriter) (key value : String) : ResponseWriter :=
  { w with header := (w.header.filter (fun kv => kv.1 ≠ key)) ++ [(key, [value])] }

/-- Go `w.WriteHeader(code)`: the first call fixes the status and the headers
sent; later calls are ignored. -/
def ResponseWriter.WriteHeader (w : ResponseWriter) (code : Nat) : ResponseWriter :=
  match w.wroteHeader with
  | some _ => w
  | none => { w with wroteHeader := some (code, w.header) }

/-- Go `w.Write(b)`: if `WriteHeader` has not been called yet, `Write` calls
`WriteHeader(http.StatusOK)` first; then the bytes are appended to the body. -/
def ResponseWriter.Write (w : ResponseWriter) (b : String) : ResponseWriter :=
  let w1 := w.WriteHeader StatusOK
  { w1 with body := w1.body ++ b }

/-- The status code the client receives: the one written, or 200 when the
handler returned without writing (the server then sends the header itself). -/
def ResponseWriter.statusCode (w : ResponseWriter) : Nat :=
  match w.wroteHeader with
  | some (code, _) => code
  | none => StatusOK

/-- The headers the client receives from the handler. -/
def ResponseWriter.sentHeader (w : ResponseWriter) : Header :=
  match w.wroteHeader with
  | some (_, h) => h
  | none => w.header

/-- Every status code a handler run has set, explicitly or through `Write`. -/
def ResponseWriter.statusSet (w : ResponseWriter) : List Nat :=
  match w.wroteHeader with
  | some (code, _) => [code]
  | none => []

/-- The state a handler runs on: its response writer and the process log. -/
structure Conn where
  w : ResponseWriter
  log : List String
deriving DecidableEq, Repr

/-- The state at the start of a request. -/
def Conn.start : Conn := { w := ResponseWriter.fresh, log := [] }

/-- Go `fmt.Fprint(w, s)`, and `fmt.Fprintf(w, format, ...)` once the `%s`
verbs of the format have been filled with their string operands. -/
def Fprint (c : Conn) (s : String) : Conn :=
  { c with w := c.w.Write s }

/-- Go `fmt.Fprintln(w, s)`. -/
def Fprintln (c : Conn) (s : String) : Conn :=
  Fprint c (s ++ "\n")

/-- Go `log.Print(a, b, ...)` with string operands: they are concatenated (no
space is added between operands when either is a string). -/
def logPrint (c : Conn) (parts : List String) : Conn :=
  { c with log := c.log ++ [String.join parts] }

/-- The type of `func(w http.ResponseWriter, r *http.Request)`. -/
abbrev HandlerFunc := World → Request → Conn → Conn

/-! ## `net.SplitHostPort` -/

/-- Go `bytealg.IndexByteString`: index of the first `c`, if any. -/
def IndexByte : List Char → Char → Option Nat
  | [], _ => none
  | x :: xs, c => if x = c then some 0 else (IndexByte xs c).map (· + 1)

/-- Go `bytealg.LastIndexByteString`: index of the last `c`, if any. -/
def LastIndexByte : List Char → Char → Option Nat
  | [], _ => none
  | x :: xs, c =>
    match LastIndexByte xs c with
    | some i => some (i + 1)
    | none => if x = c then some 0 else none

/-- Go `net.AddrError`. -/
structure AddrError where
  Err : String
  Addr : String
deriving DecidableEq, Repr

/-- The tail of `net.SplitHostPort` common to both branches: `j` and `k` are
the positions before which no `[` resp. `]` may occur, `i` is the index of the
last colon. -/
def SplitHostPort.finish (hostport : String) (host : List Char) (i j k : Nat) :
    Except AddrError (String × String) :=
  if (IndexByte (hostport.data.drop j) '[').isSome then
    .error { Err := "unexpected '[' in address", Addr := hostport }
  else if (IndexByte (hostport.data.drop k) ']').isSome then
    .error { Err := "unexpected ']' in address", Addr := hostport }
  else
    .ok (String.mk host, String.mk (hostport.data.drop (i + 1)))

/-- Go `net.SplitHostPort`: split `host:port`, `host%zone:port`, `[host]:port`
or `[host%zone]:port` into host and port. -/
def SplitHostPort (hostport : String) : Except AddrError (String × String) :=
  let missingPort := "missing port in address"
  let tooManyColons := "too many colons in address"
  let hp := hostport.data
  -- The port starts after the last colon.
  match LastIndexByte hp ':' with
  | none => .error { Err := missingPort, Addr := hostport }
  | some i =>
    if hp.head? = some '[' then
      -- Expect the first ']' just before the last ':'.
      match IndexByte hp ']' with
      | none => .error { Err := "missing ']' in address", Addr := hostport }
      | some e =>
        if e + 1 = hp.length then
          -- There can't be a ':' behind the ']' now.
          .error { Err := missingPort, Addr := hostport }
        else if e + 1 = i then
          -- The expected result.
          SplitHostPort.finish hostport ((hp.take e).drop 1) i 1 (e + 1)
        else if hp.get? (e + 1) = some ':' then
          -- ']' is followed by a colon that is not the last one.
          .error { Err := tooManyColons, Addr := hostport }
        else
          .error { Err := missingPort, Addr := hostport }
    else
      let host := hp.take i
      if (IndexByte host ':').isSome then
        .error { Err := tooManyColons, Addr := hostport }
      else
        SplitHostPort.finish hostport host i 0 0

/-! ## `net.ParseIP` -/

/-- The value of an ASCII decimal digit, Go `int(c) - '0'`. -/
def digitVal (c : Char) : Nat := c.toNat - '0'.toNat

/-- Go `netip.parseIPv4Fields`, the loop over the characters of the text:
`prev` is the character before the current one (`none` at index 0), `val` the
octet read so far, `pos` the number of octets stored, `digLen` the number of
digits of the current octet, `fields` the four octets. -/
def parseIPv4Fields : List Char → Option Char → Nat → Nat → Nat → List Nat →
    Except String (List Nat)
  | [], _, val, pos, _, fields =>
    if pos < 3 then .error "IPv4 address too short"
    else .ok (fields.set 3 val)
  | c :: rest, prev, val, pos, digLen, fields =>
    if '0' ≤ c ∧ c ≤ '9' then
      if digLen = 1 ∧ val = 0 then .error "IPv4 field has octet with leading zero"
      else
        let val1 := val * 10 + digitVal c
        if val1 > 255 then .error "IPv4 field has value >255"
        else parseIPv4Fields rest (some c) val1 pos (digLen + 1) fields
    else if c = '.' then
      -- .1.2.3   1.2.3.   1..2.3
      if prev = none ∨ rest.isEmpty ∨ prev = some '.' then
        .error "IPv4 field must have at least one digit"
      -- 1.2.3.4.5
      else if pos = 3 then .error "IPv4 address too long"
      else parseIPv4Fields rest (some c) 0 (pos + 1) 0 (fields.set pos val)
    else .error "unexpected character"

/-- Go `netip.Addr`: the sixteen bytes of the address (an IPv4 address in its
IPv4-mapped form, as `As16` gives it) and the IPv6 zone. -/
structure Addr where
  as16 : List Nat
  zone : String
deriving DecidableEq, Repr

/-- Go `netip.AddrFrom4(...).As16()`: the IPv4-mapped IPv6 form. -/
def as16of4 (fields : List Nat) : List Nat :=
  [0, 0, 0, 0, 0, 0, 0, 0, 0, 0, 255, 255] ++ fields

/-- Go `netip.parseIPv4`. -/
def parseIPv4 (s : List Char) : Except String Addr :=
  match parseIPv4Fields s none 0 0 0 [0, 0, 0, 0] with
  | .error e => .error e
  | .ok fields => .ok { as16 := as16of4 fields, zone := "" }

/-- The value of a hexadecimal digit, `none` for any other character. -/
def hexVal (c : Char) : Option Nat :=
  if '0' ≤ c ∧ c ≤ '9' then some (c.toNat - '0'.toNat)
  else if 'a' ≤ c ∧ c ≤ 'f' then some (c.toNat - 'a'.toNat + 10)
  else if 'A' ≤ c ∧ c ≤ 'F' then some (c.toNat - 'A'.toNat + 10)
  else none

/-- The inner loop of Go `netip.parseIPv6` that reads one group of hex digits:
gives the number `off` of digits read and their value `acc` (a `uint32`). -/
def parseIPv6Hex : List Char → Nat → Nat → Except String (Nat × Nat)
  | [], off, acc => .ok (off, acc)
  | c :: rest, off, acc =>
    match hexVal c with
    | none => .ok (off, acc)
    | some d =>
      let acc1 := (acc * 16 + d) % 2 ^ 32
      if off > 3 then .error "each group must have 4 or less digits"
      else if acc1 > 65535 then .error "IPv6 field has value >=2^16"
      else parseIPv6Hex rest (off + 1) acc1

/-- The variables of the main loop of Go `netip.parseIPv6`: the text left, the
write position `i` in `ip`, the position of the `::` (if seen), the bytes. -/
structure V6State where
  s : List Char
  i : Nat
  ellipsis : Option Nat
  ip : List Nat
deriving DecidableEq, Repr

/-- The main loop of Go `netip.parseIPv6`, `for i < 16`: every turn reads one
hex group (or a trailing dotted quad) and advances `i` by at least 2, so
eight turns of fuel always suffice. -/
def parseIPv6Loop : Nat → V6State → Except String V6State
  | 0, st => .ok st
  | fuel + 1, st =>
    if ¬ st.i < 16 then .ok st
    else
      match parseIPv6Hex st.s 0 0 with
      | .error e => .error e
      | .ok (off, acc) =>
        if off = 0 then
          .error "each colon-separated field must have at least one digit"
        -- If followed by dot, might be in trailing IPv4.
        else if st.s.get? off = some '.' then
          if st.ellipsis = none ∧ st.i ≠ 12 then
            .error "embedded IPv4 address must replace the final 2 fields of the address"
          else if st.i + 4 > 16 then
            .error "too many hex fields to fit an embedded IPv4 at the end of the address"
          else
            match parseIPv4Fields st.s none 0 0 0 [0, 0, 0, 0] with
            | .error e => .error e
            | .ok f =>
              .ok { s := [], i := st.i + 4, ellipsis := st.ellipsis,
                    ip := (((st.ip.set st.i (f.getD 0 0)).set (st.i + 1) (f.getD 1 0)).set
                            (st.i + 2) (f.getD 2 0)).set (st.i + 3) (f.getD 3 0) }
        else
          -- Save this 16-bit chunk.
          let ip1 := (st.ip.set st.i (acc / 256)).set (st.i + 1) (acc % 256)
          let i1 := st.i + 2
          -- Stop at end of string.
          let s1 := st.s.drop off
          if s1.isEmpty then .ok { s := s1, i := i1, ellipsis := st.ellipsis, ip := ip1 }
          -- Otherwise must be followed by colon and more.
          else if s1.head? ≠ some ':' then .error "unexpected character, want colon"
          else if s1.length = 1 then .error "colon must be followed by more characters"
          else
            let s2 := s1.drop 1
            -- Look for ellipsis.
            if s2.head? = some ':' then
              if st.ellipsis.isSome then .error "multiple :: in address"
              else
                let s3 := s2.drop 1
                if s3.isEmpty then .ok { s := s3, i := i1, ellipsis := some i1, ip := ip1 }
                else parseIPv6Loop fuel { s := s3, i := i1, ellipsis := some i1, ip := ip1 }
            else parseIPv6Loop fuel { s := s2, i := i1, ellipsis := st.ellipsis, ip := ip1 }

/-- The ellipsis expansion of Go `netip.parseIPv6`:
`for j := i - 1; j >= ellipsis; j-- { ip[j+n] = ip[j] }` and then
`clear(ip[ellipsis : ellipsis+n])`, with `n = 16 - i`. -/
def expandEllipsis (ip : List Nat) (i e : Nat) : List Nat :=
  let n := 16 - i
  let moved := (List.range (i - e)).foldl
    (fun acc t => acc.set (i - 1 - t + n) (acc.getD (i - 1 - t) 0)) ip
  (List.range n).foldl (fun acc t => acc.set (e + t) 0) moved

/-- Go `netip.parseIPv6`. -/
def parseIPv6 (input : List Char) : Except String Addr :=
  -- Split off the zone right from the start.
  let split : Except String (List Char × String) :=
    match IndexByte input '%' with
    | none => .ok (input, "")
    | some i =>
      if (input.drop (i + 1)).isEmpty then .error "zone must be a non-empty string"
      else .ok (input.take i, String.mk (input.drop (i + 1)))
  match split with
  | .error e => .error e
  | .ok (s, zone) =>
    let zeros := List.replicate 16 0
    -- Might have leading ellipsis
    let lead := decide (s.length ≥ 2 ∧ s.get? 0 = some ':' ∧ s.get? 1 = some ':')
    let s0 := if lead then s.drop 2 else s
    let ellipsis0 : Option Nat := if lead then some 0 else none
    -- Might be only ellipsis
    if lead ∧ s0.isEmpty then .ok { as16 := zeros, zone := zone }
    else
      match parseIPv6Loop 16 { s := s0, i := 0, ellipsis := ellipsis0, ip := zeros } with
      | .error e => .error e
      | .ok st =>
        -- Must have used entire string.
        if ¬ st.s.isEmpty then .error "trailing garbage after address"
        -- If didn't parse enough, expand ellipsis.
        else if st.i < 16 then
          match st.ellipsis with
          | none => .error "address string too short"
          | some e => .ok { as16 := expandEllipsis st.ip st.i e, zone := zone }
        else if st.ellipsis.isSome then
          -- Ellipsis must represent at least one 0 group.
          .error "the :: must expand to at least one field of zeroes"
        else .ok { as16 := st.ip, zone := zone }

/-- The scan of Go `netip.ParseAddr`: the first `.`, `:` or `%` met decides how
the whole text `s` is parsed. -/
def ParseAddr.scan (s : List Char) : List Char → Except String Addr
  | [] => .error "unable to parse IP"
  | c :: rest =>
    if c = '.' then parseIPv4 s
    else if c = ':' then parseIPv6 s
    else if c = '%' then .error "missing IPv6 address"
    else ParseAddr.scan s rest

/-- Go `netip.ParseAddr`. -/
def ParseAddr (s : String) : Except String Addr :=
  ParseAddr.scan s.data s.data

/-- Go `net.ParseIP`: the sixteen bytes of the address, `none` (Go `nil`) when
the text is not a valid textual IP address or carries a zone. -/
def ParseIP (s : String) : Option (List Nat) :=
  match ParseAddr s with
  | .error _ => none
  | .ok addr => if addr.zone ≠ "" then none else some addr.as16

/-! ## The handlers of `main.go` -/

/-- `w.Header().Set(key, value)` on the handler state. -/
def Conn.HeaderSet (c : Conn) (key value : String) : Conn :=
  { c with w := c.w.HeaderSet key value }

/-- `w.Write([]byte(s))` on the handler state. -/
def Conn.Write (c : Conn) (s : String) : Conn :=
  { c with w := c.w.Write s }

/-- `func readinessProbe(w http.ResponseWriter, r *http.Request)`. -/
def readinessProbe : HandlerFunc := fun _ _ c =>
  let c := c.HeaderSet "Content-Type" "text/plain"
  c.Write "OK\n"

/-- `func livenessProbe(w http.ResponseWriter, r *http.Request)`. -/
def livenessProbe : HandlerFunc := fun _ _ c =>
  let c := c.HeaderSet "Content-Type" "text/plain"
  c.Write "OK\n"

/-- `func handlerPing(w http.ResponseWriter, r *http.Request)`. -/
def handlerPing : HandlerFunc := fun _ _ c =>
  c.Write "pong"

/-- `func dumpRequest(w http.ResponseWriter, r *http.Request)`. -/
def dumpRequest : HandlerFunc := fun world r c =>
  match world.DumpRequest r with
  | .error err => Fprint c err
  | .ok requestDump => Fprint c requestDump

/-- The two nested `range` loops of `indexPage` over `r.Header`:
`fmt.Fprintf(w, "%s: %s\n", key, value)` for every value of every key. -/
def writeHeaders (c : Conn) (h : Header) : Conn :=
  h.foldl (fun c kv =>
    kv.2.foldl (fun c value => Fprint c (kv.1 ++ ": " ++ value ++ "\n")) c) c

/-- `func indexPage(w http.ResponseWriter, r *http.Request)`. -/
def indexPage : HandlerFunc := fun world r c =>
  -- get client IP address
  let split : String × String × Conn :=
    match SplitHostPort r.RemoteAddr with
    | .ok (ip, port) => (ip, port, c)
    | .error _ => ("", "", logPrint c ["userIP: [", r.RemoteAddr, "] is not IP:port"])
  let ip := split.1
  let port := split.2.1
  let c := split.2.2
  match ParseIP ip with
  | none => logPrint c ["userIP: [", r.RemoteAddr, "] is not IP:port"]
  | some _ =>
    let c := Fprint c ("ClientIP: " ++ ip ++ "\n")
    let c := Fprint c ("ClientPort: " ++ port ++ "\n")
    let c :=
      match world.hostname with
      | .ok host => Fprint c ("HostFQDN " ++ host ++ "\n")
      | .error err => Fprint c ("HostFQDN: " ++ err ++ "\n ")
    let c := Fprint c ("HostIP: " ++ r.Host ++ "\n")
    let c := Fprint c ("Protocol: " ++ r.Proto ++ "\n")
    let c := Fprint c ("Method: " ++ r.Method ++ "\n")
    let c := Fprint c ("URL: " ++ r.URL.text ++ "\n")
    let c := Fprintln c ""
    let c := writeHeaders c r.Header
    let c := Fprintln c ""
    let podName := os_Getenv world.environ "POD_NAME"
    let c := if podName ≠ "" then Fprint c ("PodName: " ++ podName ++ "\n") else c
    let nodeName := os_Getenv world.environ "NODE_NAME"
    let c := if nodeName ≠ "" then Fprint c ("nodeName: " ++ nodeName ++ "\n") else c
    let podNamespace := os_Getenv world.environ "POD_NAMESPACE"
    let c := if podNamespace ≠ "" then Fprint c ("podNamespace: " ++ podNamespace ++ "\n") else c
    let podIP := os_Getenv world.environ "POD_IP"
    let c := if podIP ≠ "" then Fprint c ("podIP: " ++ podIP ++ "\n") else c
    let serviceAccountName := os_Getenv world.environ "SERVICE_ACCOUNT"
    let c := if serviceAccountName ≠ "" then
      Fprint c ("serviceAccountName: " ++ serviceAccountName ++ "\n") else c
    c

/-- `func routeHandler(w http.ResponseWriter, r *http.Request)`. -/
def routeHandler : HandlerFunc := fun world _ c =>
  let podName := os_Getenv world.environ "POD_NAME"
  let nodeName := os_Getenv world.environ "NODE_NAME"
  let podNamespace := os_Getenv world.environ "POD_NAMESPACE"
  let podIP := os_Getenv world.environ "POD_IP"
  let serviceAccountName := os_Getenv world.environ "SERVICE_ACCOUNT"
  Fprint c (podName ++ "," ++ nodeName ++ "," ++ podNamespace ++ "," ++ podIP ++ ","
    ++ serviceAccountName ++ "\n")

/-! ## The router: `http.ServeMux` -/

/-- What a `ServeMux` can hand a request to: one of the six handlers of
`main.go`, or one of the handlers the mux makes itself. -/
inductive Handler
  | indexPage
  | readinessProbe
  | livenessProbe
  | handlerPing
  | dumpRequest
  | routeHandler
  /-- Go `http.RedirectHandler(u.String(), code)` with `u` the URL of the given
  path and raw query -/
  | RedirectHandler (path rawQuery : String) (code : Nat)
  /-- Go `http.NotFoundHandler()` -/
  | NotFoundHandler
deriving DecidableEq, Repr

/-- Go `http.StatusMovedPermanently`. -/
def StatusMovedPermanently : Nat := 301

/-- Go `http.ServeMux`: the registered patterns with their handlers, in the
order of registration.  (No pattern of `main.go` names a host, so the
host-specific lookup of the mux never applies and is left out.) -/
structure ServeMux where
  m : List (String × Handler)
deriving DecidableEq, Repr

/-- Go `http.NewServeMux()`. -/
def NewServeMux : ServeMux := { m := [] }

/-- Go `mux.HandleFunc(pattern, handler)`. -/
def ServeMux.HandleFunc (mux : ServeMux) (pattern : String) (h : Handler) : ServeMux :=
  { m := mux.m ++ [(pattern, h)] }

/-- The backtracking of Go `path.Clean` at a `..` element, after `out.w--`:
`for out.w > dotdot && out.index(out.w) != '/' { out.w-- }`, from write
index `w`; gives the final write index. -/
def Clean.backtrack (out : List Char) (dotdot : Nat) : Nat → Nat
  | 0 => 0
  | w + 1 =>
    if w + 1 > dotdot ∧ out.get? (w + 1) ≠ some '/' then Clean.backtrack out dotdot w
    else w + 1

/-- The main loop of Go `path.Clean`, `for r < n`: `p` is the text from index
`r` on, `out` the buffer written so far, `dotdot` the index where `..` must
stop.  Every turn consumes at least one character of `p`. -/
def Clean.loop (rooted : Bool) : Nat → List Char → List Char → Nat → List Char
  | 0, _, out, _ => out
  | fuel + 1, p, out, dotdot =>
    if p.isEmpty then out
    else if p.head? = some '/' then
      -- empty path element
      Clean.loop rooted fuel (p.drop 1) out dotdot
    else if p.head? = some '.' ∧ (p.length = 1 ∨ p.get? 1 = some '/') then
      -- . element
      Clean.loop rooted fuel (p.drop 1) out dotdot
    else if p.head? = some '.' ∧ p.get? 1 = some '.' ∧ (p.length = 2 ∨ p.get? 2 = some '/') then
      -- .. element: remove to last /
      if out.length > dotdot then
        -- can backtrack
        Clean.loop rooted fuel (p.drop 2)
          (out.take (Clean.backtrack out dotdot (out.length - 1))) dotdot
      else if ¬ rooted then
        -- cannot backtrack, but not rooted, so append .. element.
        let out1 := (if out.length > 0 then out ++ ['/'] else out) ++ ['.', '.']
        Clean.loop rooted fuel (p.drop 2) out1 out1.length
      else Clean.loop rooted fuel (p.drop 2) out dotdot
    else
      -- real path element.  add slash if needed
      let out1 :=
        if (rooted ∧ out.length ≠ 1) ∨ (¬ rooted ∧ out.length ≠ 0) then out ++ ['/'] else out
      -- copy element
      let el := p.takeWhile (fun ch => ch ≠ '/')
      Clean.loop rooted fuel (p.drop el.length) (out1 ++ el) dotdot

/-- Go `path.Clean`: the shortest path name equivalent to `path` by purely
lexical processing. -/
def Clean (path : List Char) : List Char :=
  if path.isEmpty then ['.']
  else
    let rooted := decide (path.head? = some '/')
    let out :=
      if rooted then Clean.loop rooted path.length (path.drop 1) ['/'] 1
      else Clean.loop rooted path.length path [] 0
    -- Turn empty string into "."
    if out.isEmpty then ['.'] else out

/-- Go `http.cleanPath`: the canonical path for `p`, eliminating `.` and `..`
elements and repeated slashes. -/
def cleanPath (path : String) : String :=
  if path = "" then "/"
  else
    let p := if path.data.head? ≠ some '/' then '/' :: path.data else path.data
    let np := Clean p
    -- path.Clean removes trailing slash except for root;
    -- put the trailing slash back if necessary.
    if p.getLast? = some '/' ∧ np ≠ ['/'] then
      if p.length = np.length + 1 ∧ np.isPrefixOf p then String.mk p
      else String.mk (np ++ ['/'])
    else String.mk np

/-- Go `(*ServeMux).match`: an exact match first, else the longest registered
pattern ending in `/` that the path starts with. -/
def ServeMux.matchPath (mux : ServeMux) (path : String) : Option Handler :=
  match mux.m.find? (fun e => e.1 = path) with
  | some e => some e.2
  | none =>
    let es := mux.m.filter (fun e => e.1.data.getLast? = some '/' ∧ e.1.data.isPrefixOf path.data)
    (es.foldl (fun best e =>
        match best with
        | none => some e
        | some b => if e.1.length > b.1.length then some e else some b)
      (none : Option (String × Handler))).map (fun e => e.2)

/-- Go `(*ServeMux).handler`: the matching handler, or `NotFoundHandler()`. -/
def ServeMux.handler (mux : ServeMux) (path : String) : Handler :=
  (mux.matchPath path).getD Handler.NotFoundHandler

/-- Go `(*ServeMux).shouldRedirectRLocked`: whether `path` is not registered
but `path + "/"` is. -/
def ServeMux.shouldRedirect (mux : ServeMux) (path : String) : Bool :=
  if (mux.m.find? (fun e => e.1 = path)).isSome then false
  else if path.data.isEmpty then false
  else if (mux.m.find? (fun e => e.1 = path ++ "/")).isSome then
    decide (path.data.getLast? ≠ some '/')
  else false

/-- Go `(*ServeMux).Handler`: the handler to use for the request.  CONNECT
requests are not canonicalised; all other requests have their path cleaned, and
a request whose path differs from its cleaned form is answered by a redirect
to the cleaned path. -/
def ServeMux.Handler (mux : ServeMux) (r : Request) : Handler :=
  if r.Method = "CONNECT" then
    if mux.shouldRedirect r.URL.Path then
      Handler.RedirectHandler (r.URL.Path ++ "/") r.URL.RawQuery StatusMovedPermanently
    else mux.handler r.URL.Path
  else
    let path := cleanPath r.URL.Path
    -- If the given path is /tree and its handler is not registered,
    -- redirect for /tree/.
    if mux.shouldRedirect path then
      Handler.RedirectHandler (path ++ "/") r.URL.RawQuery StatusMovedPermanently
    else if path ≠ r.URL.Path then
      Handler.RedirectHandler path r.URL.RawQuery StatusMovedPermanently
    else mux.handler r.URL.Path

/-- Go `(*ServeMux).ServeHTTP`: the handler the request is dispatched to;
`none` for the request target `*`, which the mux answers itself with
400 Bad Request. -/
def ServeMux.ServeHTTP (mux : ServeMux) (r : Request) : Option HttpEcho.Handler :=
  if r.RequestURI = "*" then none
  else some (mux.Handler r)

/-! ## `main` -/

/-- How `main` starts listening. -/
inductive Listener
  /-- `http.ListenAndServeTLS(addr, certFile, keyFile, server)` -/
  | ListenAndServeTLS (addr certFile keyFile : String)
  /-- `http.ListenAndServe(addr, server)` -/
  | ListenAndServe (addr : String)
deriving DecidableEq, Repr

/-- The two path variables `main` computes from the environment. -/
structure TLSPaths where
  tlsCert : String
  tlsKey : String
deriving DecidableEq, Repr

/-- Lines 123-131 of `main`: both paths are read from `TLS_CERT`. -/
def main.tlsPaths (env : Environ) : TLSPaths :=
  let tlsCert := ""
  let tlscertFromEnv := os_Getenv env "TLS_CERT"
  let tlsCert := if tlscertFromEnv ≠ "" then tlscertFromEnv else tlsCert
  let tlsKey := ""
  let tlskeyFromEnv := os_Getenv env "TLS_CERT"
  let tlsKey := if tlskeyFromEnv ≠ "" then tlskeyFromEnv else tlsKey
  { tlsCert := tlsCert, tlsKey := tlsKey }

/-- Lines 133-139 of `main`: the routes registered on the mux. -/
def main.server : ServeMux :=
  let server := NewServeMux
  let server := server.HandleFunc "/" Handler.indexPage
  let server := server.HandleFunc "/ready" Handler.readinessProbe
  let server := server.HandleFunc "/alive" Handler.livenessProbe
  let server := server.HandleFunc "/ping" Handler.handlerPing
  let server := server.HandleFunc "/dump" Handler.dumpRequest
  let server := server.HandleFunc "/route" Handler.routeHandler
  server

/-- Lines 141-148 of `main`: the listener started, for the environment and the
value of the `-listen` flag. -/
def main.listen (env : Environ) (listenFlag : String) : Listener :=
  let p := main.tlsPaths env
  if p.tlsCert ≠ "" ∧ p.tlsKey ≠ "" then
    Listener.ListenAndServeTLS listenFlag p.tlsCert p.tlsKey
  else
    Listener.ListenAndServe listenFlag

/-! ## Vocabulary of the specification -/

/-- The five identity variables, in the order the handlers print them. -/
def identityVars : List String :=
  ["POD_NAME", "NODE_NAME", "POD_NAMESPACE", "POD_IP", "SERVICE_ACCOUNT"]

/-- The comma-separated fields of a line: the trailing newline is removed and
the rest is split at every `,` (Go `strings.Split`). -/
def lineFields (line : String) : List String :=
  let t := if line.data.getLast? = some '\n' then line.data.dropLast else line.data
  (t.splitOn ',').map String.mk

/-- An environment given by its bindings; every other variable is unset. -/
def envOf (bindings : List (String × String)) : Environ :=
  fun key => (bindings.find? (fun b => b.1 = key)).map (fun b => b.2)

/-- A request used to exercise the handlers: `GET /` from `10.0.0.1:51234`. -/
def sampleRequest : Request :=
  { Method := "GET", URL := { Path := "/", RawQuery := "", text := "/" },
    Proto := "HTTP/1.1", Header := [("Accept", ["text/plain", "text/html"]), ("User-Agent", ["curl"])],
    Body := "", Host := "echo.local", RemoteAddr := "10.0.0.1:51234", RequestURI := "/" }

/-- A world with the given environment bindings, a working `os.Hostname` and a
working `httputil.DumpRequest`. -/
def sampleWorld (bindings : List (String × String)) : World :=
  { environ := envOf bindings, hostname := .ok "echo-0",
    DumpRequest := fun r => .ok (r.Method ++ " " ++ r.RequestURI ++ " " ++ r.Proto ++ "\r\n\r\n") }

/-- The lines of the header block as the specification words them: one line
`Key: Value` for each value of each header, a multi-valued header once per
value, the values of one key in their order. -/
def headerLines (h : Header) : List String :=
  h.flatMap (fun kv => kv.2.map (fun value => kv.1 ++ ": " ++ value ++ "\n"))

/-- The label the index page prints for each identity variable, in the fixed
order of the page. -/
def identityLabels : List (String × String) :=
  [("PodName", "POD_NAME"), ("nodeName", "NODE_NAME"), ("podNamespace", "POD_NAMESPACE"),
   ("podIP", "POD_IP"), ("serviceAccountName", "SERVICE_ACCOUNT")]

/-- The environment lines as the specification words them: one line
`Label: value` per identity variable whose value is non-empty, in the fixed
order; an empty or unset variable gives no line. -/
def envLines (env : Environ) : List String :=
  identityLabels.filterMap (fun lv =>
    if os_Getenv env lv.2 = "" then none
    else some (lv.1 ++ ": " ++ os_Getenv env lv.2 ++ "\n"))

/-- The text lines 72-77 of `indexPage` write for an outcome of `os.Hostname`:
the success format has no colon after the label; the failure format ends in a
newline and one space. -/
def hostLine : Except String String → String
  | .ok host => "HostFQDN " ++ host ++ "\n"
  | .error err => "HostFQDN: " ++ err ++ "\n "

/-- The number of header values of a request, all keys together. -/
def headerValueCount (h : Header) : Nat :=
  (h.map (fun kv => kv.2.length)).sum

/-- Whether the text `line` occurs in `body` as a whole line: at the start of
the body or right after a newline, and followed by a newline. -/
def hasLine (body line : String) : Prop :=
  (line.data ++ ['\n']) <+: body.data ∨ ('\n' :: line.data ++ ['\n']) <:+: body.data

instance (body line : String) : Decidable (hasLine body line) := by
  unfold hasLine; infer_instance

/-- Whether some line of `body` starts with the text `label`. -/
def hasLineStarting (body label : String) : Prop :=
  label.data <+: body.data ∨ ('\n' :: label.data) <:+: body.data

instance (body label : String) : Decidable (hasLineStarting body label) := by
  unfold hasLineStarting; infer_instance

/-- Lines 58-88 of `indexPage` as a function of the state they start from: the
seven request lines, the blank line and the header loop. -/
def indexPage.requestPart (world : World) (r : Request) (ip port : String) (c : Conn) : Conn :=
  let c := Fprint c ("ClientIP: " ++ ip ++ "\n")
  let c := Fprint c ("ClientPort: " ++ port ++ "\n")
  let c :=
    match world.hostname with
    | .ok host => Fprint c ("HostFQDN " ++ host ++ "\n")
    | .error err => Fprint c ("HostFQDN: " ++ err ++ "\n ")
  let c := Fprint c ("HostIP: " ++ r.Host ++ "\n")
  let c := Fprint c ("Protocol: " ++ r.Proto ++ "\n")
  let c := Fprint c ("Method: " ++ r.Method ++ "\n")
  let c := Fprint c ("URL: " ++ r.URL.text ++ "\n")
  let c := Fprintln c ""
  writeHeaders c r.Header

/-- Lines 90-105 of `indexPage` as a function of the state they start from: the
blank line and the five guarded environment lines. -/
def indexPage.identityPart (world : World) (c : Conn) : Conn :=
  let c := Fprintln c ""
  let podName := os_Getenv world.environ "POD_NAME"
  let c := if podName ≠ "" then Fprint c ("PodName: " ++ podName ++ "\n") else c
  let nodeName := os_Getenv world.environ "NODE_NAME"
  let c := if nodeName ≠ "" then Fprint c ("nodeName: " ++ nodeName ++ "\n") else c
  let podNamespace := os_Getenv world.environ "POD_NAMESPACE"
  let c := if podNamespace ≠ "" then Fprint c ("podNamespace: " ++ podNamespace ++ "\n") else c
  let podIP := os_Getenv world.environ "POD_IP"
  let c := if podIP ≠ "" then Fprint c ("podIP: " ++ podIP ++ "\n") else c
  let serviceAccountName := os_Getenv world.environ "SERVICE_ACCOUNT"
  let c := if serviceAccountName ≠ "" then
    Fprint c ("serviceAccountName: " ++ serviceAccountName ++ "\n") else c
  c

/-- A handler run reports no error through the status code: every status it has
set (explicitly or through its first write) is 200. -/
def setsOnlyOK (c : Conn) : Prop :=
  c.w.statusSet = [] ∨ c.w.statusSet = [StatusOK]

instance (c : Conn) : Decidable (setsOnlyOK c) := by
  unfold setsOnlyOK; infer_instance

/-- The sample request arriving with the given remote address. -/
def requestFrom (remoteAddr : String) : Request :=
  { sampleRequest with RemoteAddr := remoteAddr }

/-- The routing table as the specification words it: an exact match on the six
paths, every other path going to the index handler. -/
def routeTable (path : String) : Handler :=
  if path = "/ready" then Handler.readinessProbe
  else if path = "/alive" then Handler.livenessProbe
  else if path = "/ping" then Handler.handlerPing
  else if path = "/dump" then Handler.dumpRequest
  else if path = "/route" then Handler.routeHandler
  else Handler.indexPage

/-- The sample request for the given method and path. -/
def requestFor (method path : String) : Request :=
  { sampleRequest with
    Method := method, URL := { Path := path, RawQuery := "", text := path }, RequestURI := path }

end HttpEcho

/-! # Theorems -/

namespace HttpEcho

set_option maxRecDepth 100000

/-! ## Readiness and liveness probes -/

/-- C1: for every request and every world (environment included), readinessProbe
and livenessProbe produce one and the same response: the only status set is 200,
the header sent is Content-Type: text/plain, the body is the three characters
O, K, newline, and nothing is logged; no field of the request or of the world
enters the result. -/
theorem probes_always_ok (world : World) (r : Request) :
    readinessProbe world r Conn.start =
        { w := { header := [("Content-Type", ["text/plain"])],
                 wroteHeader := some (200, [("Content-Type", ["text/plain"])]),
                 body := "OK\n" },
          log := [] }
      ∧ livenessProbe world r Conn.start = readinessProbe world r Conn.start
      ∧ (readinessProbe world r Conn.start).w.statusCode = 200
      ∧ (readinessProbe world r Conn.start).w.statusSet = [200]
      ∧ (readinessProbe world r Conn.start).w.sentHeader = [("Content-Type", ["text/plain"])]
      ∧ (readinessProbe world r Conn.start).w.body.data = ['O', 'K', '\n'] := by
  refine ⟨?_, ?_, ?_, ?_, ?_, ?_⟩ <;> rfl

/-! ## The route handler -/

/-- The state routeHandler leaves: one write of the comma-separated line. -/
theorem routeHandler_eq (world : World) (r : Request) :
    routeHandler world r Conn.start =
      { w := { header := [], wroteHeader := some (200, []),
               body := (world.environ "POD_NAME").getD "" ++ ","
                 ++ (world.environ "NODE_NAME").getD "" ++ ","
                 ++ (world.environ "POD_NAMESPACE").getD "" ++ ","
                 ++ (world.environ "POD_IP").getD "" ++ ","
                 ++ (world.environ "SERVICE_ACCOUNT").getD "" ++ "\n" },
        log := [] } := by
  simp [routeHandler, Fprint, ResponseWriter.Write, ResponseWriter.WriteHeader, Conn.start,
    ResponseWriter.fresh, os_Getenv, StatusOK]

/-- C2: for every world and request, routeHandler writes exactly
POD_NAME , NODE_NAME , POD_NAMESPACE , POD_IP , SERVICE_ACCOUNT and a newline,
in that order and without labels, each variable standing for its value in the
environment or for the empty string when it is unset or empty; nothing else is
written, the status is 200, and the request plays no role (the same state
results from any other request). -/
theorem routeHandler_line (world : World) (r r2 : Request) :
    (routeHandler world r Conn.start).w.body =
        (world.environ "POD_NAME").getD "" ++ ","
          ++ (world.environ "NODE_NAME").getD "" ++ ","
          ++ (world.environ "POD_NAMESPACE").getD "" ++ ","
          ++ (world.environ "POD_IP").getD "" ++ ","
          ++ (world.environ "SERVICE_ACCOUNT").getD "" ++ "\n"
      ∧ (routeHandler world r Conn.start).w.wroteHeader = some (200, [])
      ∧ (routeHandler world r Conn.start).log = []
      ∧ routeHandler world r2 Conn.start = routeHandler world r Conn.start := by
  rw [routeHandler_eq world r, routeHandler_eq world r2]
  exact ⟨rfl, rfl, rfl, rfl⟩

/-- The line of routeHandler, as characters, is the five values joined by
commas, then a newline. -/
theorem routeHandler_body_data (world : World) (r : Request) :
    (routeHandler world r Conn.start).w.body.data =
      [','].intercalate (identityVars.map (fun k => (os_Getenv world.environ k).data))
        ++ ['\n'] := by
  rw [routeHandler_eq]
  simp [identityVars, os_Getenv, List.intercalate, List.intersperse]

/-- C3, as stated, fails: with POD_NAME set to the text a,b (and nothing else
set) the line written by routeHandler is a,b,,,, and a newline, which splits
into six fields, not five, and these are not the five values. -/
theorem route_fields_not_five :
    (routeHandler (sampleWorld [("POD_NAME", "a,b")]) sampleRequest Conn.start).w.body
        = "a,b,,,,\n"
      ∧ (lineFields (routeHandler (sampleWorld [("POD_NAME", "a,b")]) sampleRequest
          Conn.start).w.body).length = 6
      ∧ lineFields (routeHandler (sampleWorld [("POD_NAME", "a,b")]) sampleRequest
          Conn.start).w.body
        ≠ identityVars.map (os_Getenv (sampleWorld [("POD_NAME", "a,b")]).environ) := by
  decide

/-- C3, amended: for every world in which none of the five values contains a
comma, the line written by routeHandler, its trailing newline removed and split
at the commas, gives exactly five fields: the values of POD_NAME, NODE_NAME,
POD_NAMESPACE, POD_IP and SERVICE_ACCOUNT, in this order (an unset variable
giving the empty field). -/
theorem route_fields_exact (world : World) (r : Request)
    (hcomma : ∀ k ∈ identityVars, ',' ∉ (os_Getenv world.environ k).data) :
    lineFields (routeHandler world r Conn.start).w.body
        = identityVars.map (os_Getenv world.environ)
      ∧ (lineFields (routeHandler world r Conn.start).w.body).length = 5 := by
  have hfields : lineFields (routeHandler world r Conn.start).w.body
      = identityVars.map (os_Getenv world.environ) := by
    unfold lineFields
    rw [routeHandler_body_data]
    have hlast : ∀ l : List Char, (l ++ ['\n']).getLast? = some '\n' := by
      intro l; simp
    simp only [hlast, if_true, List.dropLast_concat]
    rw [List.splitOn_intercalate]
    · simp [List.map_map, Function.comp_def]
    · intro l hl
      obtain ⟨k, hk, rfl⟩ := List.mem_map.mp hl
      exact hcomma k hk
    · simp [identityVars]
  exact ⟨hfields, by rw [hfields]; rfl⟩

/-- The amended C3 at the environment of the specification's own example:
POD_NAME is a, NODE_NAME is b, the others unset; the fields are a, b and three
empty ones. -/
theorem route_fields_exact_witness :
    (∀ k ∈ identityVars,
        ',' ∉ (os_Getenv (sampleWorld [("POD_NAME", "a"), ("NODE_NAME", "b")]).environ k).data)
      ∧ lineFields (routeHandler (sampleWorld [("POD_NAME", "a"), ("NODE_NAME", "b")])
          sampleRequest Conn.start).w.body = ["a", "b", "", "", ""] :=
  ⟨by decide,
   (route_fields_exact (sampleWorld [("POD_NAME", "a"), ("NODE_NAME", "b")]) sampleRequest
      (by decide)).1⟩

/-! ## Startup: the listener -/

/-- C10: the listener is decided by the two paths, HTTPS when both are
non-empty and plaintext HTTP otherwise; both paths are the value of TLS_CERT,
so they are always the same text, HTTPS is started exactly when TLS_CERT is
non-empty (with that one value as certificate and as key), and two
environments that agree on TLS_CERT start the same listener whatever else
(TLS_KEY, say) they bind. -/
theorem listener_from_tls_cert (env env2 : Environ) (listenFlag : String)
    (hagree : env "TLS_CERT" = env2 "TLS_CERT") :
    (main.tlsPaths env).tlsCert = os_Getenv env "TLS_CERT"
      ∧ (main.tlsPaths env).tlsKey = (main.tlsPaths env).tlsCert
      ∧ main.listen env listenFlag =
          (if (main.tlsPaths env).tlsCert ≠ "" ∧ (main.tlsPaths env).tlsKey ≠ "" then
            Listener.ListenAndServeTLS listenFlag (main.tlsPaths env).tlsCert
              (main.tlsPaths env).tlsKey
          else Listener.ListenAndServe listenFlag)
      ∧ (os_Getenv env "TLS_CERT" ≠ "" →
          main.listen env listenFlag = Listener.ListenAndServeTLS listenFlag
            (os_Getenv env "TLS_CERT") (os_Getenv env "TLS_CERT"))
      ∧ (os_Getenv env "TLS_CERT" = "" →
          main.listen env listenFlag = Listener.ListenAndServe listenFlag)
      ∧ main.listen env2 listenFlag = main.listen env listenFlag := by
  have hP : ∀ e : Environ, (main.tlsPaths e).tlsCert = os_Getenv e "TLS_CERT"
      ∧ (main.tlsPaths e).tlsKey = os_Getenv e "TLS_CERT" := by
    intro e
    unfold main.tlsPaths
    by_cases h : os_Getenv e "TLS_CERT" = "" <;> simp [h]
  have hL : ∀ e : Environ, main.listen e listenFlag =
      (if os_Getenv e "TLS_CERT" ≠ "" then
        Listener.ListenAndServeTLS listenFlag (os_Getenv e "TLS_CERT") (os_Getenv e "TLS_CERT")
      else Listener.ListenAndServe listenFlag) := by
    intro e
    unfold main.listen
    simp only [(hP e).1, (hP e).2]
    by_cases h : os_Getenv e "TLS_CERT" = "" <;> simp [h]
  have hG : os_Getenv env2 "TLS_CERT" = os_Getenv env "TLS_CERT" := by
    simp [os_Getenv, hagree]
  refine ⟨(hP env).1, by rw [(hP env).1, (hP env).2], rfl, ?_, ?_, ?_⟩
  · intro h; rw [hL]; simp [h]
  · intro h; rw [hL]; simp [h]
  · rw [hL env2, hL env, hG]

/-- C10 at two environments that agree on TLS_CERT and differ on TLS_KEY: both
start HTTPS with the TLS_CERT path as certificate and as key. -/
theorem listener_from_tls_cert_witness :
    envOf [("TLS_CERT", "/tls/tls.crt")] "TLS_CERT"
        = envOf [("TLS_KEY", "/tls/tls.key"), ("TLS_CERT", "/tls/tls.crt")] "TLS_CERT"
      ∧ main.listen (envOf [("TLS_KEY", "/tls/tls.key"), ("TLS_CERT", "/tls/tls.crt")]) ":8080"
        = Listener.ListenAndServeTLS ":8080" "/tls/tls.crt" "/tls/tls.crt"
      ∧ main.listen (envOf [("TLS_KEY", "/tls/tls.key")]) ":8080"
        = Listener.ListenAndServe ":8080" :=
  ⟨by decide,
   ((listener_from_tls_cert (envOf [("TLS_CERT", "/tls/tls.crt")])
      (envOf [("TLS_KEY", "/tls/tls.key"), ("TLS_CERT", "/tls/tls.crt")]) ":8080"
      (by decide)).2.2.2.2.2).trans (by decide),
   by decide⟩

/-! ## The index page -/

theorem Fprint_start (s : String) :
    Fprint Conn.start s = { w := { header := [], wroteHeader := some (200, []), body := s },
                            log := [] } := by
  simp [Fprint, ResponseWriter.Write, ResponseWriter.WriteHeader, Conn.start,
    ResponseWriter.fresh, StatusOK]

theorem Fprint_wrote (h : Header) (st : Nat × Header) (b : String) (l : List String)
    (s : String) :
    Fprint { w := { header := h, wroteHeader := some st, body := b }, log := l } s
      = { w := { header := h, wroteHeader := some st, body := b ++ s }, log := l } := rfl

theorem writeValues_wrote (key : String) (values : List String) (h : Header)
    (st : Nat × Header) (b : String) (l : List String) :
    values.foldl (fun c value => Fprint c (key ++ ": " ++ value ++ "\n"))
        { w := { header := h, wroteHeader := some st, body := b }, log := l }
      = { w := { header := h, wroteHeader := some st,
                 body := b ++ String.join (values.map (fun value => key ++ ": " ++ value ++ "\n")) },
          log := l } := by
  induction values generalizing b with
  | nil => simp [String.join]
  | cons v vs ih =>
    simp only [List.foldl_cons, Fprint_wrote, ih, List.map_cons]
    congr 2
    apply String.ext
    simp [String.data_join]

theorem writeHeaders_wrote (hd : Header) (h : Header) (st : Nat × Header) (b : String)
    (l : List String) :
    writeHeaders { w := { header := h, wroteHeader := some st, body := b }, log := l } hd
      = { w := { header := h, wroteHeader := some st, body := b ++ String.join (headerLines hd) },
          log := l } := by
  unfold writeHeaders
  induction hd generalizing b with
  | nil => simp [headerLines, String.join]
  | cons kv rest ih =>
    simp only [List.foldl_cons, writeValues_wrote, ih]
    congr 2
    apply String.ext
    simp [String.data_join, headerLines]

/-- The body of indexPage after a successful IP parse is its two parts run one
after the other. -/
theorem indexPage_parts (world : World) (r : Request) (ip port : String) (a : List Nat)
    (hsplit : SplitHostPort r.RemoteAddr = .ok (ip, port)) (hip : ParseIP ip = some a) :
    indexPage world r Conn.start
      = indexPage.identityPart world (indexPage.requestPart world r ip port Conn.start) := by
  unfold indexPage
  simp only [hsplit, hip]
  rfl

theorem requestPart_start (world : World) (r : Request) (ip port : String) :
    indexPage.requestPart world r ip port Conn.start =
      { w := { header := [], wroteHeader := some (200, []),
               body := "ClientIP: " ++ ip ++ "\n" ++ ("ClientPort: " ++ port ++ "\n")
                 ++ hostLine world.hostname
                 ++ ("HostIP: " ++ r.Host ++ "\n") ++ ("Protocol: " ++ r.Proto ++ "\n")
                 ++ ("Method: " ++ r.Method ++ "\n") ++ ("URL: " ++ r.URL.text ++ "\n")
                 ++ "\n" ++ String.join (headerLines r.Header) },
        log := [] } := by
  cases hh : world.hostname <;>
  simp only [indexPage.requestPart, hh, Fprint_start, Fprint_wrote, Fprintln,
    writeHeaders_wrote, hostLine, String.empty_append]

theorem identityPart_wrote (world : World) (h : Header) (st : Nat × Header) (b : String)
    (l : List String) :
    indexPage.identityPart world
        { w := { header := h, wroteHeader := some st, body := b }, log := l }
      = { w := { header := h, wroteHeader := some st,
                 body := b ++ "\n" ++ String.join (envLines world.environ) },
          log := l } := by
  by_cases h1 : os_Getenv world.environ "POD_NAME" = "" <;>
  by_cases h2 : os_Getenv world.environ "NODE_NAME" = "" <;>
  by_cases h3 : os_Getenv world.environ "POD_NAMESPACE" = "" <;>
  by_cases h4 : os_Getenv world.environ "POD_IP" = "" <;>
  by_cases h5 : os_Getenv world.environ "SERVICE_ACCOUNT" = "" <;>
  (simp only [indexPage.identityPart, h1, h2, h3, h4, h5, ne_eq, not_true_eq_false,
      not_false_eq_true, if_true, if_false, Fprintln, Fprint_wrote, envLines, identityLabels,
      List.filterMap_cons, List.filterMap_nil, Conn.mk.injEq, ResponseWriter.mk.injEq,
      true_and, and_true]
   apply String.ext
   simp [String.data_join])

/-- The whole state indexPage leaves when the remote address splits and its
host part parses as an IP address. -/
theorem indexPage_ok (world : World) (r : Request) (ip port : String)
    (hsplit : SplitHostPort r.RemoteAddr = .ok (ip, port)) (hip : ParseIP ip ≠ none) :
    indexPage world r Conn.start =
      { w := { header := [], wroteHeader := some (200, []),
               body := "ClientIP: " ++ ip ++ "\n" ++ ("ClientPort: " ++ port ++ "\n")
                 ++ hostLine world.hostname
                 ++ ("HostIP: " ++ r.Host ++ "\n") ++ ("Protocol: " ++ r.Proto ++ "\n")
                 ++ ("Method: " ++ r.Method ++ "\n") ++ ("URL: " ++ r.URL.text ++ "\n")
                 ++ "\n" ++ String.join (headerLines r.Header)
                 ++ "\n" ++ String.join (envLines world.environ) },
        log := [] } := by
  obtain ⟨a, ha⟩ := Option.ne_none_iff_exists'.mp hip
  rw [indexPage_parts world r ip port a hsplit ha, requestPart_start, identityPart_wrote]

/-- The whole state indexPage leaves when the host part does not parse as an
IP address: nothing is written, one message is logged. -/
theorem indexPage_bad_ip (world : World) (r : Request) (ip port : String)
    (hsplit : SplitHostPort r.RemoteAddr = .ok (ip, port)) (hip : ParseIP ip = none) :
    indexPage world r Conn.start =
      { w := ResponseWriter.fresh,
        log := [String.join ["userIP: [", r.RemoteAddr, "] is not IP:port"]] } := by
  unfold indexPage
  simp only [hsplit, hip]
  rfl

/-- The whole state indexPage leaves when the remote address does not split:
nothing is written, the message is logged twice. -/
theorem indexPage_bad_split (world : World) (r : Request) (e : AddrError)
    (hsplit : SplitHostPort r.RemoteAddr = .error e) :
    indexPage world r Conn.start =
      { w := ResponseWriter.fresh,
        log := [String.join ["userIP: [", r.RemoteAddr, "] is not IP:port"],
                String.join ["userIP: [", r.RemoteAddr, "] is not IP:port"]] } := by
  have hempty : ParseIP "" = none := by decide
  unfold indexPage
  simp only [hsplit, hempty]
  rfl

/-- C4: for every request whose RemoteAddr splits as host:port into ip and port
with ip a valid textual IP address, the body written by indexPage begins with
the line ClientIP: ip followed by the line ClientPort: port, ip and port being
exactly the two components SplitHostPort returns. -/
theorem indexPage_client_lines (world : World) (r : Request) (ip port : String)
    (hsplit : SplitHostPort r.RemoteAddr = .ok (ip, port)) (hip : ParseIP ip ≠ none) :
    ∃ rest : String, (indexPage world r Conn.start).w.body
      = "ClientIP: " ++ ip ++ "\n" ++ ("ClientPort: " ++ port ++ "\n") ++ rest := by
  rw [indexPage_ok world r ip port hsplit hip]
  refine ⟨hostLine world.hostname
    ++ ("HostIP: " ++ r.Host ++ "\n") ++ ("Protocol: " ++ r.Proto ++ "\n")
    ++ ("Method: " ++ r.Method ++ "\n") ++ ("URL: " ++ r.URL.text ++ "\n")
    ++ "\n" ++ String.join (headerLines r.Header)
    ++ "\n" ++ String.join (envLines world.environ), ?_⟩
  apply String.ext
  simp only [String.data_append, List.append_assoc]

/-- C4 at the remote address 10.0.0.1:51234: it splits into 10.0.0.1 and 51234,
10.0.0.1 is a valid IP address, and the body begins with the two lines. -/
theorem indexPage_client_lines_witness :
    SplitHostPort (requestFrom "10.0.0.1:51234").RemoteAddr = .ok ("10.0.0.1", "51234")
      ∧ ParseIP "10.0.0.1" ≠ none
      ∧ ∃ rest : String,
          (indexPage (sampleWorld []) (requestFrom "10.0.0.1:51234") Conn.start).w.body
            = "ClientIP: " ++ "10.0.0.1" ++ "\n" ++ ("ClientPort: " ++ "51234" ++ "\n") ++ rest :=
  ⟨rfl, by decide,
   indexPage_client_lines (sampleWorld []) (requestFrom "10.0.0.1:51234") "10.0.0.1" "51234"
     rfl (by decide)⟩

/-- C5, as stated, fails: the remote address nocolon does not split as
host:port, and indexPage then writes nothing at all: the body is empty, so it
has no ClientIP line, blank or otherwise. -/
theorem indexPage_unsplit_no_client_line :
    (∃ e, SplitHostPort (requestFrom "nocolon").RemoteAddr = .error e)
      ∧ (indexPage (sampleWorld []) (requestFrom "nocolon") Conn.start).w.body = ""
      ∧ ¬ hasLineStarting (indexPage (sampleWorld []) (requestFrom "nocolon") Conn.start).w.body
            "ClientIP" :=
  ⟨⟨_, rfl⟩, by decide, by decide⟩

/-- C5, amended: for every request whose RemoteAddr fails to split as
host:port, indexPage does not stop at the failed split: it logs the warning and
goes on with the empty IP; the empty text is not an IP address, so it logs the
warning a second time and returns before writing anything: the body is empty
(it has no ClientIP line), no header is set and no status is set, so the client
receives status 200. -/
theorem indexPage_unsplit_returns_early (world : World) (r : Request) (e : AddrError)
    (hsplit : SplitHostPort r.RemoteAddr = .error e) :
    ParseIP "" = none
      ∧ (indexPage world r Conn.start).w = ResponseWriter.fresh
      ∧ (indexPage world r Conn.start).w.body = ""
      ∧ ¬ hasLineStarting (indexPage world r Conn.start).w.body "ClientIP"
      ∧ (indexPage world r Conn.start).w.statusSet = []
      ∧ (indexPage world r Conn.start).w.statusCode = 200
      ∧ (indexPage world r Conn.start).log
          = ["userIP: [" ++ r.RemoteAddr ++ "] is not IP:port",
             "userIP: [" ++ r.RemoteAddr ++ "] is not IP:port"] := by
  have hnone : ¬ hasLineStarting ResponseWriter.fresh.body "ClientIP" := by decide
  rw [indexPage_bad_split world r e hsplit]
  refine ⟨by decide, rfl, rfl, hnone, rfl, rfl, ?_⟩
  simp [String.join]

/-- The amended C5 at the remote address nocolon. -/
theorem indexPage_unsplit_returns_early_witness :
    SplitHostPort (requestFrom "nocolon").RemoteAddr
        = .error { Err := "missing port in address", Addr := "nocolon" }
      ∧ (indexPage (sampleWorld []) (requestFrom "nocolon") Conn.start).w
          = ResponseWriter.fresh
      ∧ (indexPage (sampleWorld []) (requestFrom "nocolon") Conn.start).log
          = ["userIP: [nocolon] is not IP:port", "userIP: [nocolon] is not IP:port"] :=
  ⟨rfl,
   (indexPage_unsplit_returns_early (sampleWorld []) (requestFrom "nocolon") _ rfl).2.1,
   (indexPage_unsplit_returns_early (sampleWorld []) (requestFrom "nocolon") _ rfl).2.2.2.2.2.2⟩

/-- The number of environment lines is the number of identity variables with a
non-empty value. -/
theorem envLines_length (env : Environ) :
    (envLines env).length = (identityVars.filter (fun k => os_Getenv env k ≠ "")).length := by
  simp only [envLines, identityLabels, identityVars, List.filterMap_cons, List.filterMap_nil,
    List.filter_cons, List.filter_nil]
  by_cases h1 : os_Getenv env "POD_NAME" = "" <;>
  by_cases h2 : os_Getenv env "NODE_NAME" = "" <;>
  by_cases h3 : os_Getenv env "POD_NAMESPACE" = "" <;>
  by_cases h4 : os_Getenv env "POD_IP" = "" <;>
  by_cases h5 : os_Getenv env "SERVICE_ACCOUNT" = "" <;>
  simp [h1, h2, h3, h4, h5]

/-- The header block has one line per header value. -/
theorem headerLines_length (h : Header) : (headerLines h).length = headerValueCount h := by
  induction h with
  | nil => rfl
  | cons kv rest ih =>
    simp only [headerLines, List.flatMap_cons, List.length_append, List.length_map,
      headerValueCount, List.map_cons, List.sum_cons] at ih ⊢
    rw [ih]

/-- The header block of a header list is the blocks of its parts, in order. -/
theorem headerLines_append (h1 h2 : Header) :
    headerLines (h1 ++ h2) = headerLines h1 ++ headerLines h2 := by
  simp [headerLines, List.flatMap_append]

/-- C6: for every request with a parseable RemoteAddr and every environment,
what indexPage writes after the header loop is a blank line and then exactly
the environment section: the concatenation, in the fixed order POD_NAME,
NODE_NAME, POD_NAMESPACE, POD_IP, SERVICE_ACCOUNT, of one line Label: value per
variable whose value is non-empty, with the labels PodName, nodeName,
podNamespace, podIP, serviceAccountName; an empty or unset variable gives no
line, so there are as many lines as non-empty variables. -/
theorem indexPage_identity_section (world : World) (r : Request) (ip port : String)
    (hsplit : SplitHostPort r.RemoteAddr = .ok (ip, port)) (hip : ParseIP ip ≠ none) :
    (indexPage world r Conn.start).w.body
        = (indexPage.requestPart world r ip port Conn.start).w.body ++ "\n"
            ++ String.join (envLines world.environ)
      ∧ envLines world.environ =
          [("PodName", "POD_NAME"), ("nodeName", "NODE_NAME"), ("podNamespace", "POD_NAMESPACE"),
           ("podIP", "POD_IP"), ("serviceAccountName", "SERVICE_ACCOUNT")].filterMap
            (fun lv => if (world.environ lv.2).getD "" = "" then none
              else some (lv.1 ++ ": " ++ (world.environ lv.2).getD "" ++ "\n"))
      ∧ (envLines world.environ).length
          = (identityVars.filter (fun k => os_Getenv world.environ k ≠ "")).length := by
  refine ⟨?_, rfl, envLines_length world.environ⟩
  rw [indexPage_ok world r ip port hsplit hip, requestPart_start]

/-- C6 at the example of the specification: with POD_IP set to 10.0.0.5 and
SERVICE_ACCOUNT unset, the environment section is the single line
podIP: 10.0.0.5, the body has that line and has no serviceAccountName line. -/
theorem indexPage_identity_section_witness :
    SplitHostPort sampleRequest.RemoteAddr = .ok ("10.0.0.1", "51234")
      ∧ ParseIP "10.0.0.1" ≠ none
      ∧ (indexPage (sampleWorld [("POD_IP", "10.0.0.5")]) sampleRequest Conn.start).w.body
          = (indexPage.requestPart (sampleWorld [("POD_IP", "10.0.0.5")]) sampleRequest
              "10.0.0.1" "51234" Conn.start).w.body ++ "\n" ++ String.join ["podIP: 10.0.0.5\n"]
      ∧ hasLine (indexPage (sampleWorld [("POD_IP", "10.0.0.5")]) sampleRequest
          Conn.start).w.body "podIP: 10.0.0.5"
      ∧ ¬ hasLineStarting (indexPage (sampleWorld [("POD_IP", "10.0.0.5")]) sampleRequest
          Conn.start).w.body "serviceAccountName" :=
  ⟨rfl, by decide,
   (indexPage_identity_section (sampleWorld [("POD_IP", "10.0.0.5")]) sampleRequest
      "10.0.0.1" "51234" rfl (by decide)).1.trans (by decide),
   by decide, by decide⟩

/-- C7: for every request with a parseable RemoteAddr, the body of indexPage
is, in this order: the ClientIP line, the ClientPort line, the HostFQDN text
(the host name, or the error's text when the lookup fails), the HostIP line
(the Host field), the Protocol, Method and URL lines, a blank line, the header
block, a blank line, the environment lines.  The header block is exactly one
line Key: Value per value of each header: as many lines as header values in
total, a line being in the block exactly when it is Key: Value for a value of a
key of the request, the values of one key in their order. -/
theorem indexPage_layout (world : World) (r : Request) (ip port : String)
    (hsplit : SplitHostPort r.RemoteAddr = .ok (ip, port)) (hip : ParseIP ip ≠ none) :
    (indexPage world r Conn.start).w.body
        = "ClientIP: " ++ ip ++ "\n" ++ ("ClientPort: " ++ port ++ "\n")
            ++ (match world.hostname with
                | .ok host => "HostFQDN " ++ host ++ "\n"
                | .error err => "HostFQDN: " ++ err ++ "\n ")
            ++ ("HostIP: " ++ r.Host ++ "\n") ++ ("Protocol: " ++ r.Proto ++ "\n")
            ++ ("Method: " ++ r.Method ++ "\n") ++ ("URL: " ++ r.URL.text ++ "\n")
            ++ "\n" ++ String.join (headerLines r.Header)
            ++ "\n" ++ String.join (envLines world.environ)
      ∧ (headerLines r.Header).length = headerValueCount r.Header
      ∧ (∀ line, line ∈ headerLines r.Header ↔
          ∃ kv ∈ r.Header, ∃ value ∈ kv.2, line = kv.1 ++ ": " ++ value ++ "\n")
      ∧ (∀ (before after : Header) (key : String) (values : List String),
          headerLines (before ++ (key, values) :: after)
            = headerLines before ++ values.map (fun value => key ++ ": " ++ value ++ "\n")
                ++ headerLines after) := by
  refine ⟨?_, headerLines_length r.Header, ?_, ?_⟩
  · rw [indexPage_ok world r ip port hsplit hip]
    cases world.hostname <;> rfl
  · intro line
    simp only [headerLines, List.mem_flatMap, List.mem_map]
    constructor
    · rintro ⟨kv, hkv, v, hv, rfl⟩
      exact ⟨kv, hkv, v, hv, rfl⟩
    · rintro ⟨kv, hkv, v, hv, rfl⟩
      exact ⟨kv, hkv, v, hv, rfl⟩
  · intro before after key values
    rw [headerLines_append]
    simp [headerLines]

/-- C7 at the sample request (Accept with two values, User-Agent with one) and
an environment binding POD_NAME: the whole body, character for character. -/
theorem indexPage_layout_witness :
    SplitHostPort sampleRequest.RemoteAddr = .ok ("10.0.0.1", "51234")
      ∧ ParseIP "10.0.0.1" ≠ none
      ∧ (indexPage (sampleWorld [("POD_NAME", "echo-0")]) sampleRequest Conn.start).w.body
          = "ClientIP: 10.0.0.1\nClientPort: 51234\nHostFQDN echo-0\nHostIP: echo.local\n"
            ++ "Protocol: HTTP/1.1\nMethod: GET\nURL: /\n\n"
            ++ "Accept: text/plain\nAccept: text/html\nUser-Agent: curl\n\n"
            ++ "PodName: echo-0\n"
      ∧ (headerLines sampleRequest.Header).length = 3 :=
  ⟨rfl, by decide,
   (indexPage_layout (sampleWorld [("POD_NAME", "echo-0")]) sampleRequest
      "10.0.0.1" "51234" rfl (by decide)).1.trans (by decide),
   (indexPage_layout (sampleWorld [("POD_NAME", "echo-0")]) sampleRequest
      "10.0.0.1" "51234" rfl (by decide)).2.1.trans (by decide)⟩

/-! ## No handler reports an error through the status code -/

/-- The status facts of a state reached by writing from the fresh writer. -/
theorem wrote_ok_status (h hs : Header) (b : String) (l : List String) :
    setsOnlyOK { w := { header := h, wroteHeader := some (200, hs), body := b }, log := l }
      ∧ ({ w := { header := h, wroteHeader := some (200, hs), body := b }, log := l } :
          Conn).w.statusCode = 200 :=
  ⟨Or.inr rfl, rfl⟩

/-- The status facts of a state in which nothing was written. -/
theorem fresh_ok_status (l : List String) :
    setsOnlyOK { w := ResponseWriter.fresh, log := l }
      ∧ ({ w := ResponseWriter.fresh, log := l } : Conn).w.statusCode = 200 :=
  ⟨Or.inl rfl, rfl⟩

/-- On every input indexPage sets no status other than 200. -/
theorem indexPage_status (world : World) (r : Request) :
    setsOnlyOK (indexPage world r Conn.start)
      ∧ (indexPage world r Conn.start).w.statusCode = 200 := by
  cases hs : SplitHostPort r.RemoteAddr with
  | error e =>
    rw [indexPage_bad_split world r e hs]
    exact fresh_ok_status _
  | ok p =>
    obtain ⟨ip, port⟩ := p
    cases hp : ParseIP ip with
    | none =>
      rw [indexPage_bad_ip world r ip port hs hp]
      exact fresh_ok_status _
    | some a =>
      rw [indexPage_ok world r ip port hs (by rw [hp]; exact Option.some_ne_none a)]
      exact wrote_ok_status _ _ _ _

/-- The state dumpRequest leaves: one write of the dump, or of the error's
text. -/
theorem dumpRequest_eq (world : World) (r : Request) :
    dumpRequest world r Conn.start =
      { w := { header := [], wroteHeader := some (200, []),
               body := match world.DumpRequest r with
                 | .ok requestDump => requestDump
                 | .error err => err },
        log := [] } := by
  unfold dumpRequest
  cases world.DumpRequest r <;> simp only [Fprint_start]

/-- C8: no handler reports an error through the status code.  For each of the
six handlers and for every request and world (environment, outcome of the
host-name lookup, outcome of the serialisation), the handler sets no status
other than 200 and the client receives 200; this covers the early return of
indexPage and the failure branch of dumpRequest, whose body is exactly the
error's text (and exactly the serialised request on success). -/
theorem handlers_set_no_error_status (world : World) (r : Request) :
    (setsOnlyOK (indexPage world r Conn.start)
        ∧ (indexPage world r Conn.start).w.statusCode = 200)
      ∧ (setsOnlyOK (readinessProbe world r Conn.start)
        ∧ (readinessProbe world r Conn.start).w.statusCode = 200)
      ∧ (setsOnlyOK (livenessProbe world r Conn.start)
        ∧ (livenessProbe world r Conn.start).w.statusCode = 200)
      ∧ (setsOnlyOK (handlerPing world r Conn.start)
        ∧ (handlerPing world r Conn.start).w.statusCode = 200)
      ∧ (setsOnlyOK (dumpRequest world r Conn.start)
        ∧ (dumpRequest world r Conn.start).w.statusCode = 200)
      ∧ (setsOnlyOK (routeHandler world r Conn.start)
        ∧ (routeHandler world r Conn.start).w.statusCode = 200)
      ∧ (dumpRequest world r Conn.start).w.body
          = (match world.DumpRequest r with
              | .ok requestDump => requestDump
              | .error err => err)
      ∧ (dumpRequest world r Conn.start).w.statusSet = [200] := by
  refine ⟨indexPage_status world r, ⟨Or.inr rfl, rfl⟩, ⟨Or.inr rfl, rfl⟩, ⟨Or.inr rfl, rfl⟩,
    ?_, ?_, ?_, ?_⟩
  · rw [dumpRequest_eq]; exact wrote_ok_status _ _ _ _
  · rw [routeHandler_eq]; exact wrote_ok_status _ _ _ _
  · rw [dumpRequest_eq]
  · rw [dumpRequest_eq]; rfl

/-! ## The router -/

theorem Clean.backtrack_pos (out : List Char) (w : Nat) (hw : 1 ≤ w) :
    1 ≤ Clean.backtrack out 1 w := by
  induction w with
  | zero => omega
  | succ n ih =>
    unfold Clean.backtrack
    split
    · rename_i h
      exact ih (by omega)
    · omega

/-- The loop of path.Clean on a rooted path never removes the leading slash. -/
theorem Clean.loop_head (fuel : Nat) (p out : List Char) (hout : out.head? = some '/') :
    (Clean.loop true fuel p out 1).head? = some '/' := by
  induction fuel generalizing p out with
  | zero => simpa [Clean.loop] using hout
  | succ n ih =>
    have hne : out ≠ [] := by
      intro h; rw [h] at hout; simp at hout
    unfold Clean.loop
    split
    · exact hout
    · split
      · exact ih _ _ hout
      · split
        · exact ih _ _ hout
        · split
          · split
            · apply ih
              rw [List.head?_take]
              have := Clean.backtrack_pos out (out.length - 1) (by omega)
              rw [if_neg (by omega)]
              exact hout
            · simp only [not_true_eq_false, if_false]
              exact ih _ _ hout
          · apply ih
            split
            · rw [List.append_assoc, List.head?_append_of_ne_nil _ hne]; exact hout
            · rw [List.head?_append_of_ne_nil _ hne]; exact hout

/-- Go path.Clean keeps a rooted path rooted. -/
theorem Clean_head (p : List Char) (hp : p.head? = some '/') : (Clean p).head? = some '/' := by
  have hne : p ≠ [] := by
    intro h; rw [h] at hp; simp at hp
  have hloop := Clean.loop_head p.length (p.drop 1) ['/'] rfl
  have hne2 : Clean.loop true p.length (p.drop 1) ['/'] 1 ≠ [] := by
    intro h; rw [h] at hloop; simp at hloop
  simp only [Clean, List.isEmpty_eq_true, hne, hp, if_false, decide_True, if_true, hne2]
  exact hloop

theorem cleanPath_tail_head (p : List Char) (hp : p.head? = some '/') :
    (if p.getLast? = some '/' ∧ Clean p ≠ ['/'] then
        if p.length = (Clean p).length + 1 ∧ (Clean p).isPrefixOf p then String.mk p
        else String.mk (Clean p ++ ['/'])
      else String.mk (Clean p)).data.head? = some '/' := by
  have hclean := Clean_head p hp
  have hne : Clean p ≠ [] := by
    intro h; rw [h] at hclean; simp at hclean
  split_ifs
  · exact hp
  · show (Clean p ++ ['/']).head? = _
    rw [List.head?_append_of_ne_nil _ hne]; exact hclean
  · exact hclean

/-- The path http.cleanPath returns always starts with a slash. -/
theorem cleanPath_head (path : String) : (cleanPath path).data.head? = some '/' := by
  unfold cleanPath
  split
  · rfl
  · have hp : (if path.data.head? ≠ some '/' then '/' :: path.data else path.data).head?
        = some '/' := by
      by_cases h : path.data.head? = some '/' <;> simp [h]
    exact cleanPath_tail_head _ hp

/-- The patterns `main` registers, in order. -/
theorem server_patterns :
    main.server.m = [("/", Handler.indexPage), ("/ready", Handler.readinessProbe),
      ("/alive", Handler.livenessProbe), ("/ping", Handler.handlerPing),
      ("/dump", Handler.dumpRequest), ("/route", Handler.routeHandler)] := rfl

/-- A text ending in a slash is none of the five probe and tool paths. -/
theorem slash_end_not_registered (p : String) (hlast : p.data.getLast? = some '/') :
    p ≠ "/ready" ∧ p ≠ "/alive" ∧ p ≠ "/ping" ∧ p ≠ "/dump" ∧ p ≠ "/route" := by
  refine ⟨?_, ?_, ?_, ?_, ?_⟩ <;>
  · intro h
    rw [h] at hlast
    revert hlast
    decide

/-- On the mux of `main`, a rooted path matches its exact entry of the table,
and the index handler when it has none. -/
theorem server_matchPath (p : String) (hp : p.data.head? = some '/') :
    main.server.matchPath p = some (routeTable p) := by
  have hpre : ['/'].isPrefixOf p.data = true := by
    cases hd : p.data with
    | nil => rw [hd] at hp; simp at hp
    | cons c cs =>
      rw [hd] at hp
      simp only [List.head?_cons, Option.some.injEq] at hp
      simp [List.isPrefixOf, hp]
  have hroot : ("/" : String).data = ['/'] := rfl
  have hl1 : ("/ready" : String).data.getLast? ≠ some '/' := by decide
  have hl2 : ("/alive" : String).data.getLast? ≠ some '/' := by decide
  have hl3 : ("/ping" : String).data.getLast? ≠ some '/' := by decide
  have hl4 : ("/dump" : String).data.getLast? ≠ some '/' := by decide
  have hl5 : ("/route" : String).data.getLast? ≠ some '/' := by decide
  unfold ServeMux.matchPath
  rw [server_patterns]
  by_cases h0 : "/" = p
  · subst h0; rfl
  by_cases h1 : "/ready" = p
  · subst h1; rfl
  by_cases h2 : "/alive" = p
  · subst h2; rfl
  by_cases h3 : "/ping" = p
  · subst h3; rfl
  by_cases h4 : "/dump" = p
  · subst h4; rfl
  by_cases h5 : "/route" = p
  · subst h5; rfl
  simp only [List.find?_cons, List.find?_nil, h0, h1, h2, h3, h4, h5, decide_False]
  simp only [List.filter_cons, List.filter_nil, hroot, hpre, hl1, hl2, hl3, hl4, hl5,
    List.getLast?_singleton, true_and, false_and, decide_True, decide_False, if_true,
    Bool.false_eq_true, if_false, List.foldl_cons, List.foldl_nil, Option.map_some']
  simp [routeTable, Ne.symm h1, Ne.symm h2, Ne.symm h3, Ne.symm h4, Ne.symm h5]

/-- The mux of `main` has no pattern ending in a slash but the root, so a
rooted path never gets the trailing-slash redirect. -/
theorem server_shouldRedirect (p : String) (hp : p.data.head? = some '/') :
    main.server.shouldRedirect p = false := by
  have hne : p.data ≠ [] := by
    intro h; rw [h] at hp; simp at hp
  have hlast : (p ++ "/").data.getLast? = some '/' := by
    rw [String.data_append]
    show (p.data ++ ['/']).getLast? = _
    simp
  have hnot := slash_end_not_registered (p ++ "/") hlast
  have hroot : "/" ≠ p ++ "/" := by
    intro h
    have hlen := congrArg (fun s : String => s.data.length) h
    simp only [String.data_append, List.length_append] at hlen
    have : p.data.length = 0 := by
      have h1 : ("/" : String).data.length = 1 := rfl
      omega
    exact hne (List.length_eq_zero.mp this)
  unfold ServeMux.shouldRedirect
  rw [server_patterns]
  split
  · rfl
  · split
    · rfl
    · have hfind : List.find? (fun e : String × Handler => decide (e.1 = p ++ "/"))
          [("/", Handler.indexPage), ("/ready", Handler.readinessProbe),
           ("/alive", Handler.livenessProbe), ("/ping", Handler.handlerPing),
           ("/dump", Handler.dumpRequest), ("/route", Handler.routeHandler)] = none := by
        simp only [List.find?_cons, List.find?_nil, hroot, Ne.symm hnot.1, Ne.symm hnot.2.1,
          Ne.symm hnot.2.2.1, Ne.symm hnot.2.2.2.1, Ne.symm hnot.2.2.2.2, decide_False]
      rw [hfind]
      rfl

/-- C9, as stated, fails: the path of GET //ready is none of the six paths, and
the router does not dispatch it to indexPage: the mux answers with a redirect
(301) to the cleaned path /ready.  The same holds for /a/../ping. -/
theorem router_unclean_path_not_index :
    (requestFor "GET" "//ready").URL.Path ∉ ["/", "/ready", "/alive", "/ping", "/dump", "/route"]
      ∧ main.server.ServeHTTP (requestFor "GET" "//ready")
          = some (Handler.RedirectHandler "/ready" "" 301)
      ∧ main.server.ServeHTTP (requestFor "GET" "//ready") ≠ some Handler.indexPage
      ∧ main.server.ServeHTTP (requestFor "GET" "/a/../ping")
          = some (Handler.RedirectHandler "/ping" "" 301) := by
  decide

/-- C9, amended: the router maps request paths to handlers by exact match,
/ready to readinessProbe, /alive to livenessProbe, /ping to handlerPing, /dump
to dumpRequest, /route to routeHandler and / to indexPage; every path in
canonical form (equal to its cleaned form: rooted, without empty, dot or
dot-dot elements) that is not exactly one of these six is dispatched to
indexPage, for any method, the request target not being the asterisk.  A path
not in canonical form is, for every method but CONNECT, not dispatched to any
of the six handlers: it is answered by a redirect (301) to its cleaned form. -/
theorem router_canonical_paths (r : Request) (hstar : r.RequestURI ≠ "*") :
    (cleanPath r.URL.Path = r.URL.Path →
        main.server.ServeHTTP r = some (routeTable r.URL.Path))
      ∧ (r.Method ≠ "CONNECT" → cleanPath r.URL.Path ≠ r.URL.Path →
          main.server.ServeHTTP r
            = some (Handler.RedirectHandler (cleanPath r.URL.Path) r.URL.RawQuery 301))
      ∧ routeTable "/" = Handler.indexPage
      ∧ routeTable "/ready" = Handler.readinessProbe
      ∧ routeTable "/alive" = Handler.livenessProbe
      ∧ routeTable "/ping" = Handler.handlerPing
      ∧ routeTable "/dump" = Handler.dumpRequest
      ∧ routeTable "/route" = Handler.routeHandler
      ∧ (r.URL.Path ∉ ["/ready", "/alive", "/ping", "/dump", "/route"] →
          routeTable r.URL.Path = Handler.indexPage) := by
  refine ⟨?_, ?_, by decide, by decide, by decide, by decide, by decide, by decide, ?_⟩
  · intro hclean
    have hhead : r.URL.Path.data.head? = some '/' := by
      rw [← hclean]; exact cleanPath_head _
    unfold ServeMux.ServeHTTP ServeMux.Handler
    simp only [hstar, if_false, hclean, server_shouldRedirect _ hhead, Bool.false_eq_true,
      ne_eq, not_true_eq_false, ServeMux.handler, server_matchPath _ hhead, Option.getD_some,
      ite_self]
  · intro hmethod hunclean
    unfold ServeMux.ServeHTTP ServeMux.Handler
    simp only [hstar, if_false, hmethod, server_shouldRedirect _ (cleanPath_head _),
      Bool.false_eq_true, ne_eq, hunclean, not_false_eq_true, if_true, StatusMovedPermanently]
  · intro hnot
    simp only [List.mem_cons, List.mem_singleton, List.not_mem_nil, or_false, not_or] at hnot
    simp [routeTable, hnot.1, hnot.2.1, hnot.2.2.1, hnot.2.2.2.1, hnot.2.2.2.2]

/-- The amended C9 at three requests: GET /ready goes to readinessProbe,
POST /no/such/page and CONNECT /ready/ go to indexPage. -/
theorem router_canonical_paths_witness :
    (requestFor "GET" "/ready").RequestURI ≠ "*"
      ∧ cleanPath (requestFor "GET" "/ready").URL.Path = (requestFor "GET" "/ready").URL.Path
      ∧ main.server.ServeHTTP (requestFor "GET" "/ready") = some Handler.readinessProbe
      ∧ cleanPath "/no/such/page" = "/no/such/page"
      ∧ main.server.ServeHTTP (requestFor "POST" "/no/such/page") = some Handler.indexPage
      ∧ main.server.ServeHTTP (requestFor "CONNECT" "/ready/") = some Handler.indexPage :=
  ⟨by decide, by decide,
   ((router_canonical_paths (requestFor "GET" "/ready") (by decide)).1 (by decide)).trans
     (by decide),
   by decide,
   ((router_canonical_paths (requestFor "POST" "/no/such/page") (by decide)).1
     (by decide)).trans (by decide),
   by decide⟩

end HttpEcho
